import Mathlib

/-!
Verification of the scb-credit-simulator-backend CRUD/notification service.

The development shallowly embeds the request handlers of
`src/routes/sample.routes.ts` (the five-file variant wired to the email
service), the Mongo-backed store they use, and `EmailService` from
`src/services/email.service.ts`:

* Documents live in an explicit `Store` (a list of `SampleData` plus a
  fresh-id counter standing for Mongo ObjectId generation, plus a clock).
* Each Express handler becomes a pure function from its parsed inputs and
  the store to an `HttpResult` (status code + `ApiResponse` envelope) and,
  for writes, an updated store.  The `catch` branch of each handler is
  reached through a `conn` flag (the `getCollection` call throws when the
  service never connected) and an `idOk` flag (`new ObjectId(id)` throws
  on a malformed id); both route to the handler's 500 envelope.
* JavaScript runtime values appearing in request bodies are embedded as
  `JsVal`, with JS truthiness and JS string coercion made explicit, so
  that the `if (!label || !value)` filter of `formatAnswers` and the
  `if (name) ...` guards of the update handler mean exactly what they do
  at runtime.
* `EmailService.sendEmail` is a total function returning the structured
  `SendResult` of the source (it never throws: its body is one `try`),
  parameterised by the configured flag, the environment, and the mail
  provider's outcome; it also reports the mail options it dispatched, if
  any, so that "no email was sent" is observable.
-/

/-- Embedding of a JavaScript runtime value as it can appear in a parsed
JSON request body: a string, a number, a boolean, an array, or a missing /
null / undefined value. -/
inductive JsVal where
  | str (s : String)
  | num (n : Int)
  | bool (b : Bool)
  | arr (elems : List JsVal)
  | undef

/-- JavaScript truthiness: `""`, `0`, `false`, `undefined`/`null` are falsy;
every array (including `[]`) is truthy. -/
def jsTruthy : JsVal → Bool
  | .str s => s ≠ ""
  | .num n => n ≠ 0
  | .bool b => b
  | .arr _ => true
  | .undef => false

mutual

/-- JavaScript string coercion as performed by template-literal
interpolation: `undefined` renders as "undefined", arrays render as their
elements joined with ",". -/
def jsToString : JsVal → String
  | .str s => s
  | .num n => toString n
  | .bool b => cond b "true" "false"
  | .undef => "undefined"
  | .arr xs => String.intercalate "," (jsJoinStrings xs)

/-- Element rendering used by `Array.prototype.join`: `undefined` and `null`
elements become the empty string, other elements are string-coerced. -/
def jsJoinStrings : List JsVal → List String
  | [] => []
  | .undef :: vs => "" :: jsJoinStrings vs
  | .str s :: vs => s :: jsJoinStrings vs
  | .num n :: vs => toString n :: jsJoinStrings vs
  | .bool b :: vs => cond b "true" "false" :: jsJoinStrings vs
  | .arr xs :: vs => String.intercalate "," (jsJoinStrings xs) :: jsJoinStrings vs

end

/-- One `{label, value}` entry of the free-form `answers` array posted to
the create endpoint. -/
structure Answer where
  label : JsVal
  value : JsVal

/-- The fixed greeting that `formatAnswers` starts its message with. -/
def formatGreeting : String :=
  "📋 Bonjour SCB Cameroun, J\x27ai rempli les questionnaires du simulateur et voici *Mes réponses au questionnaire* : <br /> <ul>"

/-- The fixed sign-off that `formatAnswers` appends after the list. -/
def formatSignoff : String :=
  "<br /> </ul> J\x27aimerais en savoir plus s\x27il vous plait"

/-- The list line built for one surviving `{label, value}` pair, exactly the
template literal of the source. -/
def answerLine (label val : String) : String :=
  "<li> <span style=\"font-weight: bold\"> " ++ label ++
    " </span>  :  <i> " ++ val ++ " </i> </li>  <br />"

/-- `Array.isArray(value) ? value.join(", ") : value` followed by the
template-literal coercion of the result. -/
def renderVal : JsVal → String
  | .arr xs => String.intercalate ", " (jsJoinStrings xs)
  | v => jsToString v

/-- `formatAnswers` of `sample.routes.ts`: the for-loop accumulating into
`message` becomes a fold; `if (!label || !value) continue` is the JS-falsy
filter. -/
def formatAnswers (answers : List Answer) : String :=
  (answers.foldl
    (fun msg a =>
      if !jsTruthy a.label || !jsTruthy a.value then msg
      else msg ++ answerLine (jsToString a.label) (renderVal a.value))
    formatGreeting) ++ formatSignoff

/-- The entries of the answers array that survive the falsy filter. -/
def keptAnswers (answers : List Answer) : List Answer :=
  answers.filter (fun a => jsTruthy a.label && jsTruthy a.value)

/-- One persisted document of the `users` collection (`SampleData` of
`types/index.d.ts`): Mongo ObjectId generation is embedded as a `Nat`
drawn from the store's fresh-id counter, `createdAt` as the store clock
value at write time.  (The create handler's body spread also copies the
raw `answers` array into the stored document; no observable property of
the claims depends on it, so it is not carried here.) -/
structure SampleData where
  id : Nat
  name : String
  email : String
  age : Int
  createdAt : Nat
deriving DecidableEq, Repr

/-- The per-operation `data` payload of a response envelope. -/
inductive Payload where
  | list (docs : List SampleData)
  | one (doc : SampleData)
  | created (id : Nat)
  | seeded (insertedCount : Nat)
deriving DecidableEq, Repr

/-- `ApiResponse` of `types/index.d.ts`: success flag, optional payload,
optional message. -/
structure ApiResponse where
  success : Bool
  data : Option Payload
  message : Option String
deriving DecidableEq, Repr

/-- An HTTP status code together with the JSON envelope a handler sent. -/
structure HttpResult where
  status : Nat
  body : ApiResponse
deriving DecidableEq, Repr

/-- The Mongo-backed store seen through `MongoService`: the documents of
the single `users` collection, the fresh-id counter standing for ObjectId
generation, and the current clock (`new Date()`). -/
structure Store where
  docs : List SampleData
  nextId : Nat
  now : Nat
deriving DecidableEq, Repr

/-- `GET /api/data`: list all documents.  `conn = false` is the path where
`getCollection()` throws, landing in the handler's catch. -/
def getAllData (conn : Bool) (st : Store) : HttpResult :=
  if conn then
    ⟨200, ⟨true, some (.list st.docs), none⟩⟩
  else
    ⟨500, ⟨false, none, some "Failed to fetch data"⟩⟩

/-- `GET /api/data/:id`: `findOne({_id})`, 404 envelope when no document
matches.  `idOk = false` is the path where `new ObjectId(id)` throws on a
malformed id; like a thrown `getCollection`, it lands in the catch (500). -/
def getDataById (conn idOk : Bool) (id : Nat) (st : Store) : HttpResult :=
  if conn && idOk then
    match st.docs.find? (fun r => r.id == id) with
    | none => ⟨404, ⟨false, none, some "Data not found"⟩⟩
    | some d => ⟨200, ⟨true, some (.one d), none⟩⟩
  else
    ⟨500, ⟨false, none, some "Failed to fetch data"⟩⟩

/-- The create request body: the Record fields plus the free-form answers
array (clients never supply `_id`/`createdAt`). -/
structure CreateBody where
  name : String
  email : String
  age : Int
  answers : List Answer

/-- `{success: false, error: ...}` shape returned by
`EmailService.sendEmail`. -/
structure SendResult where
  success : Bool
  messageId : Option String
  previewUrl : Option String
  error : Option String
deriving DecidableEq, Repr

/-- The mail data bag (`data` argument of `sendEmail`): the fields the
three templates dereference.  A `none` field is an absent / undefined
property. -/
structure EmailData where
  subject : Option String
  message : Option String
  name : Option String
  email : Option String
  age : Option Int
deriving DecidableEq, Repr

/-- `EmailTemplate` of `types/index.d.ts`. -/
structure EmailTemplate where
  subject : String
  html : String
  text : String
deriving DecidableEq, Repr

/-- The mail options handed to `transporter.sendMail`.  The subject/text/
html fields are `undefined` (`none`) when the template lookup resolved an
inherited `Object.prototype` member instead of a template object. -/
structure MailOptions where
  fromAddr : String
  toAddr : String
  subject : Option String
  text : Option String
  html : Option String
deriving DecidableEq, Repr

/-- What `transporter.sendMail` did: resolved with an info object
(message id plus the ethereal test-message url, if any) or rejected with
an error message. -/
structure MailInfo where
  messageId : String
  testUrl : Option String
deriving DecidableEq, Repr

/-- The environment variables the email service reads while sending. -/
structure EmailEnv where
  fromName : Option String
  fromEmail : Option String
  smtpUser : Option String
  nodeEnv : Option String
deriving DecidableEq, Repr

/-- Template-literal interpolation of a possibly-absent string property:
`undefined` renders as "undefined". -/
def jsStr (o : Option String) : String := o.getD "undefined"

/-- Template-literal interpolation of a possibly-absent number property. -/
def jsNumStr : Option Int → String
  | some n => toString n
  | none => "undefined"

/-- JavaScript `o || d` for a string property followed by use as a string:
absent and empty-string values fall back to the default. -/
def jsOrStr (o : Option String) (d : String) : String :=
  match o with
  | some s => if s = "" then d else s
  | none => d

/-- HTML body of the `welcome` template (template literal reproduced
verbatim; `dateStr` is `new Date().toLocaleDateString()`). -/
def welcomeHtml (data : EmailData) (dateStr : String) : String :=
  "\n          <div style=\"font-family: Arial, sans-serif; max-width: 600px; margin: 0 auto;\">\n            <h2 style=\"color: #333;\">Welcome to Our Service!</h2>\n            <p>Hi <strong>" ++ jsStr data.name ++
  "</strong>,</p>\n            <p>Thank you for joining our service. We\x27re excited to have you on board!</p>\n            <div style=\"background-color: #f5f5f5; padding: 15px; margin: 20px 0; border-radius: 5px;\">\n              <p><strong>Your Details:</strong></p>\n              <ul>\n                <li>Name: " ++ jsStr data.name ++
  "</li>\n                <li>Email: " ++ jsStr data.email ++
  "</li>\n                <li>Age: " ++ jsNumStr data.age ++
  "</li>\n                <li>Joined: " ++ dateStr ++
  "</li>\n              </ul>\n            </div>\n            <p>If you have any questions, feel free to contact our support team.</p>\n            <p>Best regards,<br>The Team</p>\n          </div>\n        "

/-- Plain-text body of the `welcome` template. -/
def welcomeText (data : EmailData) (dateStr : String) : String :=
  "Welcome " ++ jsStr data.name ++
  "!\n\nThank you for joining our service. We\x27re excited to have you on board!\n\nYour Details:\n- Name: " ++ jsStr data.name ++
  "\n- Email: " ++ jsStr data.email ++
  "\n- Age: " ++ jsNumStr data.age ++
  "\n- Joined: " ++ dateStr ++
  "\n\nIf you have any questions, feel free to contact our support team.\n\nBest regards,\nThe Team"

/-- HTML body of the `notification` template (`timeStr` is
`new Date().toLocaleString()`). -/
def notificationHtml (message timeStr : String) : String :=
  "\n          <div style=\"font-family: Arial, sans-serif; max-width: 600px; margin: 0 auto;\">\n            <h2 style=\"color: #333;\">Notification</h2>\n            <p>Hi there,</p>\n            <p>" ++ message ++
  "</p>\n            <p>This notification was sent on " ++ timeStr ++
  "</p>\n            <p>Best regards,<br>The Team</p>\n          </div>\n        "

/-- Plain-text body of the `notification` template. -/
def notificationText (message timeStr : String) : String :=
  "Notification\n\nHi there,\n\n" ++ message ++
  "\n\nThis notification was sent on " ++ timeStr ++
  "\n\nBest regards,\nThe Team"

/-- `msg.replace(/\n/g, "<br>")` of the custom template: every newline
character of the message replaced by the string `"<br>"`. -/
def replaceNewlineBr (s : String) : String :=
  String.join (s.data.map (fun c => if c = '\n' then "<br>" else String.singleton c))

/-- HTML body of the `custom` template: the message with every newline
already replaced by `<br>` is spliced into the wrapper. -/
def customHtml (msgHtml timeStr : String) : String :=
  "\n          <div style=\"font-family: Arial, sans-serif; max-width: 600px; margin: 0 auto;\">\n            <h2 style=\"color: #333;\">Message</h2>\n            <p>" ++ msgHtml ++
  "</p>\n            <p>Sent on " ++ timeStr ++
  "</p>\n          </div>\n        "

/-- Plain-text body of the `custom` template: the raw message, newlines
untouched. -/
def customText (msg timeStr : String) : String :=
  msg ++ "\n\nSent on " ++ timeStr

/-- What `templates[type] || templates.custom` evaluates to: one of the
three own-property template objects (or the custom fallback), or a truthy
member inherited from `Object.prototype` — a function (or, for
`__proto__`, an object) whose `subject`/`html`/`text` are `undefined`. -/
inductive TemplateLookup where
  | tmpl (t : EmailTemplate)
  | protoMember (name : String)
deriving DecidableEq, Repr

/-- The enumerable-or-not members every plain object literal inherits from
`Object.prototype`: bracket lookup `templates[type]` resolves these names
through the prototype chain to a truthy value, so `|| templates.custom`
does not kick in for them. -/
def objectProtoProps : List String :=
  ["constructor", "hasOwnProperty", "isPrototypeOf", "propertyIsEnumerable",
   "toLocaleString", "toString", "valueOf",
   "__defineGetter__", "__defineSetter__", "__lookupGetter__",
   "__lookupSetter__", "__proto__"]

/-- `EmailService.generateEmailTemplate`.  The `templates` object literal
of the source is evaluated eagerly, so building the `custom` entry runs
`data.message.replace(/\n/g, \x27<br>\x27)` before any type is selected:
when `data.message` is not a string this throws a `TypeError`, whatever
`type` was asked for — embedded as the `Except.error` branch.  With a
string message, the selection is `templates[type] || templates.custom`:
an own property (`welcome`/`notification`/`custom`) wins, a name
inherited from `Object.prototype` resolves to that truthy inherited
member (no fallback), and only a name found nowhere on the chain is
`undefined` and falls back to the custom template. -/
def generateEmailTemplate (ty : String) (data : EmailData)
    (dateStr timeStr : String) : Except String TemplateLookup :=
  match data.message with
  | none => .error "Cannot read properties of undefined (reading \x27replace\x27)"
  | some msg =>
    let welcome : EmailTemplate :=
      { subject := "Welcome " ++ jsStr data.name ++ "!"
        html := welcomeHtml data dateStr
        text := welcomeText data dateStr }
    let notification : EmailTemplate :=
      { subject := "Notification: " ++ jsOrStr data.subject "Update"
        html := notificationHtml msg timeStr
        text := notificationText msg timeStr }
    let custom : EmailTemplate :=
      { subject := jsOrStr data.subject "Message from Our Service"
        html := customHtml (replaceNewlineBr msg) timeStr
        text := customText msg timeStr }
    if ty = "welcome" then .ok (.tmpl welcome)
    else if ty = "notification" then .ok (.tmpl notification)
    else if ty = "custom" then .ok (.tmpl custom)
    else if objectProtoProps.contains ty then .ok (.protoMember ty)
    else .ok (.tmpl custom)

/-- `EmailService.sendEmail`.  Total: the source returns a structured
result on every path (`{success:false, error:"Email service not
configured"}` when not configured; the whole send is inside one `try`
whose catch returns `{success:false, error}`).  `provider` is the outcome
of `transporter.sendMail`; the second component reports the mail options
actually dispatched (`none` when no mail reached the transporter). -/
def sendEmail (configured : Bool) (env : EmailEnv) (toAddr ty : String)
    (data : EmailData) (dateStr timeStr : String)
    (provider : Except String MailInfo) : SendResult × Option MailOptions :=
  if !configured then
    (⟨false, none, none, some "Email service not configured"⟩, none)
  else
    match generateEmailTemplate ty data dateStr timeStr with
    | .error e => (⟨false, none, none, some e⟩, none)
    | .ok tl =>
      let mail : MailOptions :=
        { fromAddr := "\"" ++ jsOrStr env.fromName "Your Service" ++ "\" <" ++
            jsStr (if (env.fromEmail.getD "") ≠ "" then env.fromEmail else env.smtpUser) ++ ">"
          toAddr := toAddr
          subject := match tl with | .tmpl t => some t.subject | .protoMember _ => none
          text := match tl with | .tmpl t => some t.text | .protoMember _ => none
          html := match tl with | .tmpl t => some t.html | .protoMember _ => none }
      match provider with
      | .error e => (⟨false, none, none, some e⟩, some mail)
      | .ok info =>
        let previewUrl :=
          if env.nodeEnv ≠ some "production" then info.testUrl else none
        (⟨true, some info.messageId,
          (if (previewUrl.getD "") ≠ "" then previewUrl else none), none⟩,
         some mail)

/-- `POST /api/data`: insert the body (spread, plus a server-assigned
`createdAt`), then — with the HTTP response not depending on it — call
`emailService.isReady() && await emailService.sendEmail(RECIPIENT_EMAIL,
\x27custom\x27, mailContent)` and discard the result. -/
def createData (conn : Bool) (body : CreateBody) (emailReady : Bool)
    (env : EmailEnv) (recipient : String) (dateStr timeStr : String)
    (provider : Except String MailInfo) (st : Store) : HttpResult × Store :=
  if conn then
    let newDoc : SampleData :=
      { id := st.nextId, name := body.name, email := body.email,
        age := body.age, createdAt := st.now }
    let st' : Store := { st with docs := st.docs ++ [newDoc], nextId := st.nextId + 1 }
    let mailContent : EmailData :=
      { subject := some "Data Retrieved From Simulator",
        message := some (formatAnswers body.answers),
        name := none, email := none, age := none }
    let _mail :=
      cond emailReady
        (some (sendEmail emailReady env recipient "custom" mailContent dateStr timeStr provider))
        none
    (⟨201, ⟨true, some (.created newDoc.id), some "Data created successfully"⟩⟩, st')
  else
    (⟨500, ⟨false, none, some "Failed to create data"⟩⟩, st)

/-- The `updateData` object built by the update handler: a field enters
the `$set` document only when the body value is present and JS-truthy
(`if (name) ...`), so `0` and `""` are dropped.  `parseInt` on a numeric
body value is the identity here. -/
structure UpdateDoc where
  name : Option String
  email : Option String
  age : Option Int
deriving DecidableEq, Repr

/-- Body-to-`$set` translation of the update handler. -/
def mkUpdateDoc (name email : Option String) (age : Option Int) : UpdateDoc :=
  { name := if (name.getD "") ≠ "" then name else none
    email := if (email.getD "") ≠ "" then email else none
    age := if (age.getD 0) ≠ 0 then age else none }

/-- Mongo `$set` applied to one document. -/
def setFields (u : UpdateDoc) (r : SampleData) : SampleData :=
  { r with
    name := u.name.getD r.name
    email := u.email.getD r.email
    age := u.age.getD r.age }

/-- `PUT /api/data/:id`: `updateOne({_id}, {$set: updateData})`, then 404
when `matchedCount` is 0, else 200. -/
def updateData (conn idOk : Bool) (id : Nat)
    (name email : Option String) (age : Option Int) (st : Store) :
    HttpResult × Store :=
  if conn && idOk then
    let u := mkUpdateDoc name email age
    let docs' := st.docs.map (fun r => if r.id == id then setFields u r else r)
    let matched := st.docs.any (fun r => r.id == id)
    let st' : Store := { st with docs := docs' }
    if matched then
      (⟨200, ⟨true, none, some "Data updated successfully"⟩⟩, st')
    else
      (⟨404, ⟨false, none, some "Data not found"⟩⟩, st')
  else
    (⟨500, ⟨false, none, some "Failed to update data"⟩⟩, st)

/-- `DELETE /api/data/:id`: `deleteOne({_id})` (removes the first match),
404 when `deletedCount` is 0. -/
def deleteData (conn idOk : Bool) (id : Nat) (st : Store) :
    HttpResult × Store :=
  if conn && idOk then
    let deleted := st.docs.any (fun r => r.id == id)
    let st' : Store := { st with docs := st.docs.eraseP (fun r => r.id == id) }
    if deleted then
      (⟨200, ⟨true, none, some "Data deleted successfully"⟩⟩, st')
    else
      (⟨404, ⟨false, none, some "Data not found"⟩⟩, st')
  else
    (⟨500, ⟨false, none, some "Failed to delete data"⟩⟩, st)

/-- `POST /api/seed`: `insertMany` of the three fixed sample documents. -/
def seedData (conn : Bool) (st : Store) : HttpResult × Store :=
  if conn then
    let inserted : List SampleData :=
      [ { id := st.nextId, name := "John Doe", email := "john@example.com",
          age := 30, createdAt := st.now },
        { id := st.nextId + 1, name := "Jane Smith", email := "jane@example.com",
          age := 25, createdAt := st.now },
        { id := st.nextId + 2, name := "Bob Johnson", email := "bob@example.com",
          age := 35, createdAt := st.now } ]
    (⟨201, ⟨true, some (.seeded 3), some "Sample data seeded successfully"⟩⟩,
     { st with docs := st.docs ++ inserted, nextId := st.nextId + 3 })
  else
    (⟨500, ⟨false, none, some "Failed to seed data"⟩⟩, st)

/-- Envelope invariant common to every handler response: a failure
envelope carries no payload and always carries a message. -/
def envelopeOk (r : ApiResponse) : Bool :=
  r.success || (r.data.isNone && r.message.isSome)

/-- Envelope invariant for the state-changing handlers: additionally a
message is present on success. -/
def writeOk (r : ApiResponse) : Bool :=
  envelopeOk r && (!r.success || r.message.isSome)

lemma formatAnswers_foldl_append (answers : List Answer) (acc : String) :
    answers.foldl
      (fun msg a =>
        if !jsTruthy a.label || !jsTruthy a.value then msg
        else msg ++ answerLine (jsToString a.label) (renderVal a.value)) acc
    = acc ++ String.join
        ((keptAnswers answers).map
          (fun a => answerLine (jsToString a.label) (renderVal a.value))) := by
  induction answers generalizing acc with
  | nil =>
    apply String.ext
    simp [keptAnswers]
  | cons a rest ih =>
    rw [List.foldl_cons]
    by_cases hcond : (!jsTruthy a.label || !jsTruthy a.value) = true
    · have hk : (jsTruthy a.label && jsTruthy a.value) = false := by
        revert hcond; cases jsTruthy a.label <;> cases jsTruthy a.value <;> simp
      rw [if_pos hcond, ih]
      simp [keptAnswers, List.filter_cons, hk]
    · have hk : (jsTruthy a.label && jsTruthy a.value) = true := by
        revert hcond; cases jsTruthy a.label <;> cases jsTruthy a.value <;> simp
      rw [if_neg hcond, ih]
      apply String.ext
      simp [keptAnswers, List.filter_cons, hk]

/-- `formatAnswers` decomposes as greeting ++ one line per kept entry ++
sign-off. -/
lemma formatAnswers_eq (answers : List Answer) :
    formatAnswers answers
    = formatGreeting ++ String.join
        ((keptAnswers answers).map
          (fun a => answerLine (jsToString a.label) (renderVal a.value)))
      ++ formatSignoff := by
  unfold formatAnswers
  rw [formatAnswers_foldl_append]

lemma find?_id_eq_none_of_lt (l : List SampleData) (n : Nat)
    (h : ∀ r ∈ l, r.id < n) : l.find? (fun r => r.id == n) = none := by
  rw [List.find?_eq_none]
  intro x hx
  simp only [beq_iff_eq]
  exact Nat.ne_of_lt (h x hx)

lemma map_no_match (docs : List SampleData) (n : Nat) (u : UpdateDoc)
    (h : docs.any (fun r => r.id == n) = false) :
    docs.map (fun r => if r.id == n then setFields u r else r) = docs := by
  have h' := List.any_eq_false.mp h
  calc docs.map (fun r => if r.id == n then setFields u r else r)
      = docs.map id := List.map_congr_left (fun x hx => by simp [h' x hx])
    _ = docs := List.map_id docs

lemma getDataById_append_fresh (docs : List SampleData) (d : SampleData)
    (nid now : Nat) (hinv : ∀ r ∈ docs, r.id < d.id) :
    getDataById true true d.id ⟨docs ++ [d], nid, now⟩
      = ⟨200, ⟨true, some (.one d), none⟩⟩ := by
  have hnone := find?_id_eq_none_of_lt docs d.id hinv
  simp [getDataById, List.find?_append, hnone]

/-- C1: creating a valid Record and then fetching it by the returned id
yields a Record whose name/email/age equal the input, whose id is the
store-assigned fresh id and whose createdAt is the store clock, and a
second create returns a distinct id. -/
theorem create_then_get_roundtrip (st : Store) (body body2 : CreateBody)
    (ready ready2 : Bool) (env env2 : EmailEnv)
    (recip recip2 dateStr dateStr2 timeStr timeStr2 : String)
    (prov prov2 : Except String MailInfo)
    (hinv : ∀ r ∈ st.docs, r.id < st.nextId) :
    (createData true body ready env recip dateStr timeStr prov st).1
      = ⟨201, ⟨true, some (.created st.nextId), some "Data created successfully"⟩⟩ ∧
    getDataById true true st.nextId
        (createData true body ready env recip dateStr timeStr prov st).2
      = ⟨200, ⟨true, some (.one ⟨st.nextId, body.name, body.email, body.age, st.now⟩),
          none⟩⟩ ∧
    (createData true body2 ready2 env2 recip2 dateStr2 timeStr2 prov2
        (createData true body ready env recip dateStr timeStr prov st).2).1.body.data
      = some (.created (st.nextId + 1)) ∧
    st.nextId + 1 ≠ st.nextId := by
  refine ⟨rfl, ?_, rfl, Nat.succ_ne_self st.nextId⟩
  exact getDataById_append_fresh st.docs
    ⟨st.nextId, body.name, body.email, body.age, st.now⟩
    (st.nextId + 1) st.now hinv

/-- C1 witness: the round trip at a concrete empty store and input. -/
theorem create_then_get_roundtrip_witness :
    (∀ r ∈ (⟨[], 0, 5⟩ : Store).docs, r.id < (⟨[], 0, 5⟩ : Store).nextId) ∧
    ((createData true ⟨"n", "e", 7, []⟩ true ⟨none, none, none, none⟩ "r" "d" "t"
        (.error "x") ⟨[], 0, 5⟩).1
      = ⟨201, ⟨true, some (.created 0), some "Data created successfully"⟩⟩ ∧
    getDataById true true 0
        (createData true ⟨"n", "e", 7, []⟩ true ⟨none, none, none, none⟩ "r" "d" "t"
          (.error "x") ⟨[], 0, 5⟩).2
      = ⟨200, ⟨true, some (.one ⟨0, "n", "e", 7, 5⟩), none⟩⟩ ∧
    (createData true ⟨"m", "f", 8, []⟩ false ⟨none, none, none, none⟩ "r" "d" "t"
        (.error "x")
        (createData true ⟨"n", "e", 7, []⟩ true ⟨none, none, none, none⟩ "r" "d" "t"
          (.error "x") ⟨[], 0, 5⟩).2).1.body.data
      = some (.created 1) ∧
    (0 : Nat) + 1 ≠ 0) :=
  ⟨by simp, create_then_get_roundtrip ⟨[], 0, 5⟩ ⟨"n", "e", 7, []⟩ ⟨"m", "f", 8, []⟩
    true false ⟨none, none, none, none⟩ ⟨none, none, none, none⟩
    "r" "r" "d" "d" "t" "t" (.error "x") (.error "x") (by simp)⟩

/-- C2: whenever the store insertion succeeds, the create handler answers
201 with the success envelope carrying the new id — for every notification
readiness flag and every mail-provider outcome, so a failed or
unconfigured send never changes the response. -/
theorem create_response_independent_of_mail (st : Store) (body : CreateBody)
    (ready : Bool) (env : EmailEnv) (recip dateStr timeStr : String)
    (prov : Except String MailInfo) :
    (createData true body ready env recip dateStr timeStr prov st).1
      = ⟨201, ⟨true, some (.created st.nextId), some "Data created successfully"⟩⟩ :=
  rfl

/-- C3: for every input, `sendEmail` on an unconfigured service returns
the structured failure `{success: false, error: "Email service not
configured"}` without dispatching anything (and, being a total function,
without throwing). -/
theorem sendEmail_not_configured_fails_fast (env : EmailEnv)
    (toAddr ty : String) (data : EmailData) (dateStr timeStr : String)
    (prov : Except String MailInfo) :
    sendEmail false env toAddr ty data dateStr timeStr prov
      = (⟨false, none, none, some "Email service not configured"⟩, none) :=
  rfl

lemma setFields_mkUpdateDoc (name email : Option String) (age : Option Int)
    (r : SampleData) :
    setFields (mkUpdateDoc name email age) r
      = { r with
          name := if (name.getD "") ≠ "" then name.getD r.name else r.name
          email := if (email.getD "") ≠ "" then email.getD r.email else r.email
          age := if (age.getD 0) ≠ 0 then age.getD r.age else r.age } := by
  rcases name with _ | ns <;> rcases email with _ | es <;> rcases age with _ | an <;>
    simp only [setFields, mkUpdateDoc, Option.getD_some, Option.getD_none] <;>
    split_ifs <;> simp

/-- C4: `formatAnswers` renders one list line per entry that survives the
missing/falsy filter (array values joined with ", "), wrapped between the
fixed greeting and sign-off; on the spec's example the first and third
entries produce the lines "A: b" and "D: e, f" and the second entry
produces none. -/
theorem formatAnswers_spec :
    (∀ answers : List Answer,
      formatAnswers answers
        = formatGreeting ++ String.join
            ((keptAnswers answers).map
              (fun a => answerLine (jsToString a.label) (renderVal a.value)))
          ++ formatSignoff) ∧
    formatAnswers
        [⟨.str "A", .str "b"⟩, ⟨.str "", .str "c"⟩,
         ⟨.str "D", .arr [.str "e", .str "f"]⟩]
      = formatGreeting ++ (answerLine "A" "b" ++ answerLine "D" "e, f")
        ++ formatSignoff ∧
    (keptAnswers
        [⟨.str "A", .str "b"⟩, ⟨.str "", .str "c"⟩,
         ⟨.str "D", .arr [.str "e", .str "f"]⟩]).map
        (fun a => answerLine (jsToString a.label) (renderVal a.value))
      = [answerLine "A" "b", answerLine "D" "e, f"] := by
  refine ⟨formatAnswers_eq, ?_, ?_⟩
  · simp [formatAnswers, jsTruthy, jsToString, jsJoinStrings, renderVal,
      String.intercalate, String.intercalate.go, answerLine]
    apply String.ext
    simp
  · simp [keptAnswers, jsTruthy, jsToString, jsJoinStrings, renderVal,
      String.intercalate, String.intercalate.go, answerLine]

/-- C6: updating an existing Record with only a (non-empty) name changes
only its name — email, age, createdAt and id of the target are untouched
and every other document is unchanged. -/
theorem update_name_only_frame (st : Store) (n : Nat) (s : String)
    (hs : s ≠ "") (hmatch : st.docs.any (fun r => r.id == n) = true) :
    updateData true true n (some s) none none st
      = (⟨200, ⟨true, none, some "Data updated successfully"⟩⟩,
         { st with docs := st.docs.map (fun r =>
             if r.id == n then { r with name := s } else r) }) := by
  unfold updateData
  simp [hmatch]
  intro r _
  rw [setFields_mkUpdateDoc]
  split_ifs <;> simp_all

/-- C6 witness: the frame property at a concrete two-document store. -/
theorem update_name_only_frame_witness :
    ("X" ≠ "") ∧
    ((⟨[⟨0, "a", "a@x", 1, 2⟩, ⟨1, "b", "b@x", 3, 4⟩], 2, 9⟩ : Store).docs.any
        (fun r => r.id == 0) = true) ∧
    updateData true true 0 (some "X") none none
        ⟨[⟨0, "a", "a@x", 1, 2⟩, ⟨1, "b", "b@x", 3, 4⟩], 2, 9⟩
      = (⟨200, ⟨true, none, some "Data updated successfully"⟩⟩,
         ⟨[⟨0, "X", "a@x", 1, 2⟩, ⟨1, "b", "b@x", 3, 4⟩], 2, 9⟩) := by
  refine ⟨by decide, by decide, ?_⟩
  have h := update_name_only_frame
    ⟨[⟨0, "a", "a@x", 1, 2⟩, ⟨1, "b", "b@x", 3, 4⟩], 2, 9⟩ 0 "X"
    (by decide) (by decide)
  rw [h]
  decide

/-- C7: every envelope produced by the six handlers satisfies the
invariant: failure implies no payload, a message accompanies every error,
and a message accompanies every successful create, update, delete and
seed. -/
theorem envelope_invariant_all_handlers :
    (∀ conn st, envelopeOk (getAllData conn st).body = true) ∧
    (∀ conn idOk n st, envelopeOk (getDataById conn idOk n st).body = true) ∧
    (∀ conn body ready env recip dateStr timeStr prov st,
      writeOk (createData conn body ready env recip dateStr timeStr prov st).1.body
        = true) ∧
    (∀ conn idOk n name email age st,
      writeOk (updateData conn idOk n name email age st).1.body = true) ∧
    (∀ conn idOk n st, writeOk (deleteData conn idOk n st).1.body = true) ∧
    (∀ conn st, writeOk (seedData conn st).1.body = true) := by
  refine ⟨fun conn st => ?_, fun conn idOk n st => ?_,
    fun conn body ready env recip dateStr timeStr prov st => ?_,
    fun conn idOk n name email age st => ?_,
    fun conn idOk n st => ?_, fun conn st => ?_⟩
  · cases conn <;> simp [getAllData, envelopeOk]
  · cases conn <;> cases idOk <;>
      cases hf : st.docs.find? (fun r => r.id == n) <;>
      simp [getDataById, envelopeOk, hf]
  · cases conn <;> simp [createData, writeOk, envelopeOk]
  · cases conn <;> cases idOk <;>
      cases hm : st.docs.any (fun r => r.id == n) <;>
      simp [updateData, writeOk, envelopeOk, hm]
  · cases conn <;> cases idOk <;>
      cases hm : st.docs.any (fun r => r.id == n) <;>
      simp [deleteData, writeOk, envelopeOk, hm]
  · cases conn <;> simp [seedData, writeOk, envelopeOk]

/-- C8 counterexample: "toString" lies outside the enumeration, yet with a
message present the lookup resolves the inherited `Object.prototype`
member instead of falling back to the custom template, so no custom HTML
body containing the `<br>`-converted message is generated there. -/
theorem custom_template_fallback_counterexample :
    ("toString" ≠ "welcome" ∧ "toString" ≠ "notification") ∧
    (⟨none, some "a\nb", none, none, none⟩ : EmailData).message = some "a\nb" ∧
    generateEmailTemplate "toString" ⟨none, some "a\nb", none, none, none⟩ "d" "t"
      = .ok (.protoMember "toString") ∧
    TemplateLookup.protoMember "toString"
      ≠ .tmpl
          { subject := jsOrStr none "Message from Our Service"
            html := customHtml (replaceNewlineBr "a\nb") "t"
            text := "a\nb" ++ "\n\nSent on " ++ "t" } :=
  ⟨⟨by decide, by decide⟩, rfl, rfl,
   fun h => TemplateLookup.noConfusion h⟩

/-- C8 (amended): for type "custom" — and for any type outside the
enumeration that is also not the name of an inherited `Object.prototype`
member, so that `templates[type]` is really `undefined` and the custom
fallback applies — the generated HTML body splices in the message with
every newline replaced by `<br>`, while the text body starts with the
message verbatim, raw newlines preserved. -/
theorem custom_template_newline_handling (ty : String) (data : EmailData)
    (msg dateStr timeStr : String)
    (hty : ty = "custom" ∨ (ty ≠ "welcome" ∧ ty ≠ "notification"))
    (hproto : objectProtoProps.contains ty = false)
    (hmsg : data.message = some msg) :
    generateEmailTemplate ty data dateStr timeStr
      = .ok (.tmpl
          { subject := jsOrStr data.subject "Message from Our Service"
            html := customHtml (replaceNewlineBr msg) timeStr
            text := msg ++ "\n\nSent on " ++ timeStr }) := by
  have h1 : ty ≠ "welcome" := by
    rcases hty with rfl | ⟨h, _⟩
    · decide
    · exact h
  have h2 : ty ≠ "notification" := by
    rcases hty with rfl | ⟨_, h⟩
    · decide
    · exact h
  unfold generateEmailTemplate
  rw [hmsg]
  by_cases hc : ty = "custom"
  · subst hc
    simp [customText]
  · have hp : ty ∉ objectProtoProps := by simpa using hproto
    simp [h1, h2, hc, hp, customText]

/-- C8 witness: an unrecognized, non-inherited type with a two-line
message produces the custom template with `<br>` in the HTML and the raw
newline in the text. -/
theorem custom_template_newline_handling_witness :
    ("bogus" = "custom" ∨ ("bogus" ≠ "welcome" ∧ "bogus" ≠ "notification")) ∧
    objectProtoProps.contains "bogus" = false ∧
    (⟨none, some "a\nb", none, none, none⟩ : EmailData).message = some "a\nb" ∧
    generateEmailTemplate "bogus" ⟨none, some "a\nb", none, none, none⟩ "d" "t"
      = .ok (.tmpl
          { subject := "Message from Our Service"
            html := customHtml "a<br>b" "t"
            text := "a\nb" ++ "\n\nSent on " ++ "t" }) := by
  refine ⟨Or.inr ⟨by decide, by decide⟩, by decide, rfl, ?_⟩
  have h := custom_template_newline_handling "bogus"
    ⟨none, some "a\nb", none, none, none⟩ "a\nb" "d" "t"
    (Or.inr ⟨by decide, by decide⟩) (by decide) rfl
  have hbr : replaceNewlineBr "a\nb" = "a<br>b" := by decide
  rw [h, hbr]
  rfl

/-- C9: `formatAnswers` drops an entry whose value is falsy even when
present — value `0`, `false` or `""` yields no line — whereas a present
empty-array value is truthy and is rendered as a line with empty value
text. -/
theorem formatAnswers_falsy_values (lab : JsVal) (h : jsTruthy lab = true) :
    formatAnswers [⟨lab, .num 0⟩] = formatGreeting ++ formatSignoff ∧
    formatAnswers [⟨lab, .bool false⟩] = formatGreeting ++ formatSignoff ∧
    formatAnswers [⟨lab, .str ""⟩] = formatGreeting ++ formatSignoff ∧
    formatAnswers [⟨lab, .arr []⟩]
      = formatGreeting ++ answerLine (jsToString lab) "" ++ formatSignoff := by
  have h0 : jsTruthy (.num 0) = false := rfl
  have hb : jsTruthy (.bool false) = false := rfl
  have he : jsTruthy (.str "") = false := rfl
  have ha : jsTruthy (.arr []) = true := rfl
  have hr : renderVal (.arr []) = "" := by
    simp [renderVal, jsJoinStrings, String.intercalate]
  refine ⟨?_, ?_, ?_, ?_⟩ <;>
    simp [formatAnswers, h, h0, hb, he, ha, hr]

/-- C9 witness: the falsy-value drops and the empty-array keep at the
concrete label "L". -/
theorem formatAnswers_falsy_values_witness :
    jsTruthy (.str "L") = true ∧
    (formatAnswers [⟨.str "L", .num 0⟩] = formatGreeting ++ formatSignoff ∧
     formatAnswers [⟨.str "L", .bool false⟩] = formatGreeting ++ formatSignoff ∧
     formatAnswers [⟨.str "L", .str ""⟩] = formatGreeting ++ formatSignoff ∧
     formatAnswers [⟨.str "L", .arr []⟩]
       = formatGreeting ++ answerLine (jsToString (.str "L")) "" ++ formatSignoff) :=
  ⟨by decide, formatAnswers_falsy_values (.str "L") (by decide)⟩

/-- C10: on a configured service, a send whose type is "custom" (or any
type outside the enumeration) with a data bag lacking a string message
returns a structured failure — success false with an error string — and
dispatches no mail, instead of throwing. -/
theorem sendEmail_missing_message_fails (env : EmailEnv)
    (toAddr ty : String) (data : EmailData) (dateStr timeStr : String)
    (prov : Except String MailInfo)
    (_hty : ty = "custom" ∨ (ty ≠ "welcome" ∧ ty ≠ "notification"))
    (hmsg : data.message = none) :
    sendEmail true env toAddr ty data dateStr timeStr prov
      = (⟨false, none, none,
          some "Cannot read properties of undefined (reading \x27replace\x27)"⟩,
         none) := by
  unfold sendEmail generateEmailTemplate
  rw [hmsg]
  rfl

/-- C10 witness: the failure at a concrete configured send of type
"custom" with an empty data bag. -/
theorem sendEmail_missing_message_fails_witness :
    ("custom" = "custom" ∨ ("custom" ≠ "welcome" ∧ "custom" ≠ "notification")) ∧
    (⟨none, none, none, none, none⟩ : EmailData).message = none ∧
    sendEmail true ⟨none, none, none, none⟩ "r" "custom"
        ⟨none, none, none, none, none⟩ "d" "t" (.ok ⟨"mid", none⟩)
      = (⟨false, none, none,
          some "Cannot read properties of undefined (reading \x27replace\x27)"⟩,
         none) :=
  ⟨Or.inl rfl, rfl,
   sendEmail_missing_message_fails ⟨none, none, none, none⟩ "r" "custom"
     ⟨none, none, none, none, none⟩ "d" "t" (.ok ⟨"mid", none⟩)
     (Or.inl rfl) rfl⟩
